import Mathlib

/-!
Verification of the S3 file-sync monitor (`src/module3/scripts/s3_file_monitor.py`)
against its natural-language specification.

The script is shallowly embedded: its string/path manipulations are modelled as
functions over `List Char` (Python strings), its effectful calls (filesystem
`stat`/`open`, `put_object`, `list_buckets`, `head_bucket`) are modelled by
passing in the environment's responses explicitly, and Python exceptions are
modelled with `Except`/sum types so the script's `try`/`except` structure is
mirrored by `match` on the raise points.
-/

namespace S3Monitor

/-- Split a character list on a separator character, keeping empty groups,
like Python `str.split(sep)`. -/
def splitChars (sep : Char) : List Char → List (List Char)
  | [] => [[]]
  | c :: cs =>
    if c = sep then [] :: splitChars sep cs
    else
      match splitChars sep cs with
      | [] => [[c]]
      | g :: gs => (c :: g) :: gs

/-- The non-empty, non-`"."` slash-separated components of a path, as in
`pathlib.PurePath.parts` (pathlib drops empty and `.` components when parsing). -/
def pathParts (l : List Char) : List (List Char) :=
  (splitChars '/' l).filter (fun g => g ≠ [] ∧ g ≠ ['.'])

/-- `Path(p).name`: the final path component (empty for a root path). -/
def baseNameL (l : List Char) : List Char :=
  (pathParts l).getLastD []

/-- `Path(p).name` on `String`. -/
def baseName (s : String) : String :=
  String.mk (baseNameL s.data)

/-- Split a name around its last dot: `some (before, after)` when a dot occurs,
mirroring Python `name.rfind('.')`. -/
def lastDotSplit : List Char → Option (List Char × List Char)
  | [] => none
  | c :: cs =>
    match lastDotSplit cs with
    | some (b, a) => some (c :: b, a)
    | none => if c = '.' then some ([], cs) else none

/-- `PurePath.suffix` of a file name: the extension including the leading dot,
empty when the name has no dot, starts with its only dot, or ends with it
(pathlib: `suffix = name[i:]` iff `0 < i < len(name) - 1` for `i = rfind('.')`). -/
def suffixL (name : List Char) : List Char :=
  match lastDotSplit name with
  | some (b, a) => if b ≠ [] ∧ a ≠ [] then '.' :: a else []
  | none => []

/-- `str.lower()` on a character list (the table's keys are ASCII). -/
def toLowerL (l : List Char) : List Char := l.map Char.toLower

/-- `Path(file_path).suffix.lower()` as computed at line 158 of the script. -/
def extLower (filePath : String) : List Char :=
  toLowerL (suffixL (baseNameL filePath.data))

/-- The fixed extension-to-MIME table (lines 160-179 of the script). -/
def contentTypes : List (String × String) :=
  [(".txt", "text/plain"),
   (".json", "application/json"),
   (".xml", "application/xml"),
   (".html", "text/html"),
   (".css", "text/css"),
   (".js", "application/javascript"),
   (".jpg", "image/jpeg"),
   (".jpeg", "image/jpeg"),
   (".png", "image/png"),
   (".gif", "image/gif"),
   (".pdf", "application/pdf"),
   (".doc", "application/msword"),
   (".docx", "application/vnd.openxmlformats-officedocument.wordprocessingml.document"),
   (".xls", "application/vnd.ms-excel"),
   (".xlsx", "application/vnd.openxmlformats-officedocument.spreadsheetml.sheet"),
   (".zip", "application/zip"),
   (".tar", "application/x-tar"),
   (".gz", "application/gzip")]

/-- `S3FileHandler._get_content_type` (lines 148-181): lowercased extension,
table lookup, `application/octet-stream` fallback. -/
def getContentType (filePath : String) : String :=
  let extension := String.mk (extLower filePath)
  (contentTypes.lookup extension).getD "application/octet-stream"

/-- Python `s.rstrip('/')`: drop every trailing slash. -/
def rstripSlashL (l : List Char) : List Char :=
  (l.reverse.dropWhile (fun c => c = '/')).reverse

/-- Line 64 of the script: `s3_prefix.rstrip('/') + '/' if s3_prefix else ""`
(the empty string is falsy in Python). -/
def normPfxL (p : List Char) : List Char :=
  if p = [] then [] else rstripSlashL p ++ ['/']

/-- Line 97 of the script: `s3_key = self.s3_prefix + file_name` where
`file_name = Path(file_path).name`. -/
def s3KeyL (pfx path : List Char) : List Char :=
  normPfxL pfx ++ baseNameL path

/-- The remote key on `String`s. -/
def s3Key (pfx path : String) : String :=
  String.mk (s3KeyL pfx.data path.data)

/-- Modelled from the spec: the "file name relative to watch root" of §3 —
the event path with the watch-root directory stripped off. This notion is not
computed by the script (which takes the base name); it is the spec-side
definition used to state the `remoteKey` invariant as a refinement. -/
def relDataL (root p : List Char) : List Char :=
  if (root ++ ['/']).isPrefixOf p then p.drop (root.length + 1) else p

/-- Modelled from the spec: `relToRoot root p` on `String`s. -/
def relToRoot (root p : String) : String :=
  String.mk (relDataL root.data p.data)

/-! ## The upload pipeline

`_handle_file_event` / `_upload_to_s3`, with the environment's responses
(filesystem state at handling time, store reply to the single `put_object`
call) passed in explicitly. -/

/-- One `put_object` submission as received by the store: bucket, key, body
bytes and content-type metadata (lines 122-127 of the script). -/
structure PutCall where
  bucket : String
  key : String
  body : List Nat
  contentType : String
deriving Repr, DecidableEq

/-- The store's reply to a `put_object` submission: success, a boto3
`ClientError` with an error code (covers `AccessDenied`, `NoSuchBucket`,
throttling / 5xx codes such as `SlowDown` or `InternalError`), or a
non-`ClientError` exception (network/connection error). -/
inductive PutResp
  | ok
  | clientError (code : String)
  | connectionError
deriving Repr, DecidableEq

/-- The filesystem's view of the event's path at handling time:
`statSize = none` means `Path.stat()` raises `FileNotFoundError` (line 94);
`readBytes = none` means `open(local_path, 'rb')` raises `FileNotFoundError`
(line 121). A file that vanishes between the two has `statSize = some _`
and `readBytes = none`. -/
structure FsView where
  statSize : Option Nat
  readBytes : Option (List Nat)
deriving Repr, DecidableEq

/-- The one logged outcome an event ends in, one constructor per `logger`
call site of the handler (lines 132, 138, 140, 142, 144, 146, 105). -/
inductive LogOutcome
  | uploadedOk
  | errNoSuchBucket
  | errAccessDenied
  | errS3 (code : String)
  | errFileNotFound
  | errUnexpectedUpload
  | errProcessing
deriving Repr, DecidableEq

/-- The `except ClientError` branch of `_upload_to_s3` (lines 135-142):
dispatch on the error code. -/
def classifyClientError (code : String) : LogOutcome :=
  if code = "NoSuchBucket" then .errNoSuchBucket
  else if code = "AccessDenied" then .errAccessDenied
  else .errS3 code

/-- `S3FileHandler._upload_to_s3` (lines 107-146): resolve the content type,
read the file, submit one `put_object`, and catch every exception
(`ClientError`, `FileNotFoundError`, `Exception`), logging one outcome.
Returns the list of `put_object` submissions the store received and the
logged outcome. -/
def uploadToS3 (bucket key localPath : String) (fs : FsView) (resp : PutResp) :
    List PutCall × LogOutcome :=
  let contentType := getContentType localPath
  match fs.readBytes with
  | none => ([], .errFileNotFound)
  | some body =>
    let call : PutCall :=
      { bucket := bucket, key := key, body := body, contentType := contentType }
    match resp with
    | .ok => ([call], .uploadedOk)
    | .clientError code => ([call], classifyClientError code)
    | .connectionError => ([call], .errUnexpectedUpload)

/-- A Python exception escaping a raise point of the handler's `try` block. -/
inductive PyExc
  | fileNotFound
  | clientExc (code : String)
  | otherExc
deriving Repr, DecidableEq

/-- The `try` block of `_handle_file_event` (lines 90-102): `Path.stat` may
raise; otherwise the key is computed and `_upload_to_s3` runs (which itself
never raises — its own handlers cover every exception). -/
def handleBody (pfx bucket path : String) (fs : FsView) (resp : PutResp) :
    Except PyExc (List PutCall × LogOutcome) :=
  match fs.statSize with
  | none => .error .fileNotFound
  | some _ => .ok (uploadToS3 bucket (s3Key pfx path) path fs resp)

/-- What an event-handler invocation does: either it finishes having logged
one outcome, or an exception escapes to the caller (the watchdog emitter). -/
inductive HandlerResult
  | logged (calls : List PutCall) (outcome : LogOutcome)
  | raised (calls : List PutCall) (exc : PyExc)
deriving Repr, DecidableEq

/-- `S3FileHandler._handle_file_event` (lines 82-105): run the `try` block;
the `except Exception` clause at line 104 catches every exception and logs
a processing error. `eventType` is `"created"` or `"modified"` (only logged). -/
def handleFileEvent (pfx bucket path eventType : String) (fs : FsView) (resp : PutResp) :
    HandlerResult :=
  match handleBody pfx bucket path fs resp with
  | .ok r => .logged r.1 r.2
  | .error _ => .logged [] .errProcessing

/-- The `put_object` submissions of a handler invocation. -/
def resultCalls : HandlerResult → List PutCall
  | .logged c _ => c
  | .raised c _ => c

/-- The logged outcomes of a handler invocation (one per finished handling). -/
def resultOutcomes : HandlerResult → List LogOutcome
  | .logged _ o => [o]
  | .raised _ _ => []

/-! ## Event dispatch -/

/-- The kind of a watchdog filesystem event. -/
inductive EventKind
  | created
  | modified
deriving Repr, DecidableEq

/-- One observed filesystem event together with the environment at its
handling time: the event fields (`src_path`, `is_directory`), the
filesystem's view of the path, and the store's reply to its (potential)
`put_object` submission. -/
structure EventCtx where
  kind : EventKind
  srcPath : String
  isDirectory : Bool
  fs : FsView
  resp : PutResp
deriving Repr, DecidableEq

/-- `S3FileHandler.on_created` (lines 68-73): directories are filtered out. -/
def onCreated (pfx bucket : String) (e : EventCtx) : List PutCall × List LogOutcome :=
  if e.isDirectory then ([], [])
  else
    let r := handleFileEvent pfx bucket e.srcPath "created" e.fs e.resp
    (resultCalls r, resultOutcomes r)

/-- `S3FileHandler.on_modified` (lines 75-80): directories are filtered out. -/
def onModified (pfx bucket : String) (e : EventCtx) : List PutCall × List LogOutcome :=
  if e.isDirectory then ([], [])
  else
    let r := handleFileEvent pfx bucket e.srcPath "modified" e.fs e.resp
    (resultCalls r, resultOutcomes r)

/-- Watchdog's dispatch of one event to the handler's hook. -/
def dispatchEvent (pfx bucket : String) (e : EventCtx) : List PutCall × List LogOutcome :=
  match e.kind with
  | .created => onCreated pfx bucket e
  | .modified => onModified pfx bucket e

/-- The monitor's event loop: every observed event is dispatched to the
handler, in order; the handler holds no state between events (there is no
debounce buffer or in-flight map in the script). -/
def processEvents (pfx bucket : String) : List EventCtx → List PutCall × List LogOutcome
  | [] => ([], [])
  | e :: rest =>
    let r := dispatchEvent pfx bucket e
    let rs := processEvents pfx bucket rest
    (r.1 ++ rs.1, r.2 ++ rs.2)

/-! ## Startup: `create_s3_client`, `validate_bucket`, `main` -/

/-- An externally visible startup action, in program order. -/
inductive Action
  | listBuckets
  | headBucket (bucket : String)
  | scheduleWatch (path : String)
  | startObserver
deriving Repr, DecidableEq

/-- An exception escaping `create_s3_client`: missing credentials
(`NoCredentialsError` from the first API call), the `IndexError` from
`list_buckets()['Buckets'][0]` on an account with zero buckets, or the
`ClientError` of the probing `head_bucket` call. -/
inductive CreateClientErr
  | noCredentials
  | indexError
  | headBucketFailed (code : String)
deriving Repr, DecidableEq

/-- The environment `main` runs in: `sys.argv` (element 0 is the script
name), the `os.path` checks on the watch path, whether AWS credentials
resolve, the account's buckets in `list_buckets` order, and `head_bucket`'s
reply per bucket (`none` = success, `some code` = `ClientError code`). -/
structure Env where
  argv : List String
  pathExists : Bool
  pathIsDir : Bool
  credentialsOk : Bool
  buckets : List String
  headBucketResp : String → Option String

/-- `create_s3_client` (lines 183-210): probes connectivity with
`head_bucket` on the FIRST bucket of `list_buckets` (line 197); every
failure is logged and re-raised (both `except` clauses re-raise). Returns
the actions performed and the escaping exception, if any. -/
def createS3Client (env : Env) : List Action × Except CreateClientErr Unit :=
  if env.credentialsOk = false then ([.listBuckets], .error .noCredentials)
  else
    match env.buckets with
    | [] => ([.listBuckets], .error .indexError)
    | b :: _ =>
      match env.headBucketResp b with
      | none => ([.listBuckets, .headBucket b], .ok ())
      | some code => ([.listBuckets, .headBucket b], .error (.headBucketFailed code))

/-- `validate_bucket` (lines 212-235): `head_bucket` on the user-supplied
bucket; `ClientError` is caught and turned into `False`. -/
def validateBucket (env : Env) (bucketName : String) : List Action × Bool :=
  match env.headBucketResp bucketName with
  | none => ([.headBucket bucketName], true)
  | some _ => ([.headBucket bucketName], false)

/-- How `main` leaves the process: `sys.exit code`, or looping in the
monitoring loop with the observer started. -/
inductive MainExit
  | exited (code : Nat)
  | monitoring
deriving Repr, DecidableEq

/-- `main` (lines 237-316) up to the monitoring loop: the argc/usage check
(line 245), the eager watch-path validation (lines 262-268) BEFORE any AWS
call, client creation, bucket validation, then handler construction and
`observer.schedule`/`observer.start`. Any exception from `create_s3_client`
is caught by `main`'s `except` clauses and exits with code 1. -/
def runMain (env : Env) : List Action × MainExit :=
  if env.argv.length < 3 then ([], .exited 1)
  else
    let watchPath := env.argv.getD 1 ""
    let bucketName := env.argv.getD 2 ""
    if env.pathExists = false then ([], .exited 1)
    else if env.pathIsDir = false then ([], .exited 1)
    else
      match createS3Client env with
      | (tr, .error _) => (tr, .exited 1)
      | (tr, .ok _) =>
        match validateBucket env bucketName with
        | (tr2, false) => (tr ++ tr2, .exited 1)
        | (tr2, true) =>
          (tr ++ tr2 ++ [.scheduleWatch watchPath, .startObserver], .monitoring)

/-! ## Helper lemmas about the path functions -/

theorem splitChars_ne_nil (sep : Char) (l : List Char) : splitChars sep l ≠ [] := by
  induction l with
  | nil => simp [splitChars]
  | cons c cs ih =>
    by_cases hc : c = sep
    · simp [splitChars, hc]
    · simp only [splitChars, if_neg hc]
      cases h : splitChars sep cs with
      | nil => exact absurd h ih
      | cons g gs => simp

theorem splitChars_append (sep : Char) (xs ys : List Char) :
    splitChars sep (xs ++ sep :: ys) = splitChars sep xs ++ splitChars sep ys := by
  induction xs with
  | nil => simp [splitChars]
  | cons c cs ih =>
    by_cases hc : c = sep
    · simp only [List.cons_append, splitChars, if_pos hc]
      exact congrArg (List.cons []) ih
    · simp only [List.cons_append, splitChars, if_neg hc, List.append_eq]
      rw [ih]
      cases h : splitChars sep cs with
      | nil => exact absurd h (splitChars_ne_nil sep cs)
      | cons g gs => simp

theorem pathParts_append (xs ys : List Char) :
    pathParts (xs ++ '/' :: ys) = pathParts xs ++ pathParts ys := by
  simp [pathParts, splitChars_append, List.filter_append]

theorem getLastD_append_right (l₁ l₂ : List (List Char)) (h : l₂ ≠ []) :
    (l₁ ++ l₂).getLastD [] = l₂.getLastD [] := by
  cases h2 : l₂.getLast? with
  | none => exact absurd (List.getLast?_eq_none_iff.mp h2) h
  | some x => simp [List.getLastD_eq_getLast?, List.getLast?_append, h2]

theorem baseNameL_append (xs ys : List Char) (h : pathParts ys ≠ []) :
    baseNameL (xs ++ '/' :: ys) = baseNameL ys := by
  unfold baseNameL
  rw [pathParts_append, getLastD_append_right _ _ h]

theorem pathParts_ne_nil_of_baseNameL_ne_nil {l : List Char} (h : baseNameL l ≠ []) :
    pathParts l ≠ [] := by
  intro hp
  exact h (by simp [baseNameL, hp])

theorem baseNameL_relDataL (root p : List Char) (h : baseNameL (relDataL root p) ≠ []) :
    baseNameL (relDataL root p) = baseNameL p := by
  by_cases hpre : (root ++ ['/']).isPrefixOf p
  · obtain ⟨t, ht⟩ := List.isPrefixOf_iff_prefix.mp hpre
    have hlen : (root ++ ['/']).length = root.length + 1 := by simp
    have hdrop : relDataL root p = t := by
      unfold relDataL
      rw [if_pos hpre, ← ht]
      exact List.drop_left' hlen
    have hp : p = root ++ '/' :: t := by rw [← ht]; simp
    rw [hdrop] at h ⊢
    rw [hp, baseNameL_append _ _ (pathParts_ne_nil_of_baseNameL_ne_nil h)]
  · have heq : relDataL root p = p := by
      unfold relDataL
      rw [if_neg hpre]
    rw [heq]

/-! ## Claims -/

/-- C4: the content-type resolver is a pure total function (a Lean `def` into
`String`): it lowercases the extension, looks it up in the fixed table, and
returns `application/octet-stream` for unknown or missing extensions; in
particular `.json` maps to `application/json` and `.png` to `image/png`, and
the result depends only on the lowercased extension. -/
theorem c4_content_type_resolver :
    getContentType "b.json" = "application/json" ∧
    getContentType "c.png" = "image/png" ∧
    getContentType "C.PNG" = "image/png" ∧
    (∀ p : String, extLower p = [] → getContentType p = "application/octet-stream") ∧
    (∀ p : String, contentTypes.lookup (String.mk (extLower p)) = none →
      getContentType p = "application/octet-stream") ∧
    (∀ p q : String, extLower p = extLower q → getContentType p = getContentType q) := by
  refine ⟨rfl, rfl, rfl, ?_, ?_, ?_⟩
  · intro p hp
    unfold getContentType
    rw [hp]
    rfl
  · intro p hp
    show (contentTypes.lookup (String.mk (extLower p))).getD "application/octet-stream"
      = "application/octet-stream"
    rw [hp]
    rfl
  · intro p q h
    unfold getContentType
    rw [h]

/-- C4 witness: the resolver's universally quantified parts instantiated at
concrete paths: a dotless name and an unknown extension both fall back to
`application/octet-stream`. -/
theorem c4_content_type_resolver_witness :
    getContentType "README" = "application/octet-stream" ∧
    getContentType "a.xyz" = "application/octet-stream" := by
  constructor
  · exact c4_content_type_resolver.2.2.2.1 "README" (by rfl)
  · exact c4_content_type_resolver.2.2.2.2.1 "a.xyz" (by rfl)

/-- C8: events whose `is_directory` flag is set are filtered out at both
entry points: `on_created` and `on_modified` perform no upload and produce
no task or outcome for them. -/
theorem c8_directory_events_filtered (pfx bucket : String) (e : EventCtx)
    (hdir : e.isDirectory = true) :
    onCreated pfx bucket e = ([], []) ∧ onModified pfx bucket e = ([], []) := by
  constructor <;> simp [onCreated, onModified, hdir]

/-- C8 witness: a concrete directory-creation event produces nothing. -/
theorem c8_directory_events_filtered_witness :
    onCreated "up" "bucket"
        { kind := .created, srcPath := "/w/sub", isDirectory := true,
          fs := { statSize := some 0, readBytes := none }, resp := .ok } = ([], []) ∧
    onModified "up" "bucket"
        { kind := .modified, srcPath := "/w/sub", isDirectory := true,
          fs := { statSize := some 0, readBytes := none }, resp := .ok } = ([], []) := by
  constructor
  · exact (c8_directory_events_filtered "up" "bucket" _ rfl).1
  · exact (c8_directory_events_filtered "up" "bucket" _ rfl).2

/-- C9: the remote key depends only on the file's base name — two local
paths with the same base name get equal keys, so equally named files in
different subdirectories of the recursively watched tree overwrite each
other in the store. -/
theorem c9_key_depends_only_on_basename (pfx p₁ p₂ : String)
    (h : baseName p₁ = baseName p₂) :
    s3Key pfx p₁ = s3Key pfx p₂ := by
  have hd : baseNameL p₁.data = baseNameL p₂.data := congrArg String.data h
  unfold s3Key s3KeyL
  rw [hd]

/-- C9 witness: two distinct paths in different subdirectories, same base
name, same remote key. -/
theorem c9_key_depends_only_on_basename_witness :
    s3Key "up" "/w/sub1/x.txt" = s3Key "up" "/w/sub2/x.txt" ∧
    "/w/sub1/x.txt" ≠ "/w/sub2/x.txt" := by
  constructor
  · exact c9_key_depends_only_on_basename "up" "/w/sub1/x.txt" "/w/sub2/x.txt" (by decide)
  · decide

/-- C5: the remote key is a deterministic function of the configured prefix
and the file name relative to the watch root: paths with the same relative
name get the same key (so repeated uploads of a path overwrite the same
object), and the key a handler invocation uses is independent of the event
type, so two events for the same path always map to the same key. -/
theorem c5_remote_key_invariant (root pfx p₁ p₂ : String)
    (hrel : relToRoot root p₁ = relToRoot root p₂)
    (hne : baseName (relToRoot root p₁) ≠ "") :
    s3Key pfx p₁ = s3Key pfx p₂ ∧
    (∀ bucket et₁ et₂ fs resp,
      resultCalls (handleFileEvent pfx bucket p₁ et₁ fs resp)
        = resultCalls (handleFileEvent pfx bucket p₁ et₂ fs resp)) := by
  constructor
  · have hd : relDataL root.data p₁.data = relDataL root.data p₂.data :=
      congrArg String.data hrel
    have hne1 : baseNameL (relDataL root.data p₁.data) ≠ [] := by
      intro h0
      apply hne
      show String.mk (baseNameL (relDataL root.data p₁.data)) = ""
      rw [h0]
    have hne2 : baseNameL (relDataL root.data p₂.data) ≠ [] := by
      rw [← hd]; exact hne1
    have h1 := baseNameL_relDataL root.data p₁.data hne1
    have h2 := baseNameL_relDataL root.data p₂.data hne2
    unfold s3Key s3KeyL
    rw [← h1, ← h2, hd]
  · intro bucket et₁ et₂ fs resp
    rfl

/-- C5 witness: the watch root `/w` with two spellings of the same relative
name (absolute under the root, and already-relative) yield the same key. -/
theorem c5_remote_key_invariant_witness :
    relToRoot "/w" "/w/docs/a.txt" = relToRoot "/w" "docs/a.txt" ∧
    s3Key "up" "/w/docs/a.txt" = s3Key "up" "docs/a.txt" := by
  have h := c5_remote_key_invariant "/w" "up" "/w/docs/a.txt" "docs/a.txt"
    (by decide) (by decide)
  exact ⟨by decide, h.1⟩

/-- C6: the event-handling path never raises to its caller — every
invocation ends in exactly one logged outcome; and a file that vanishes
between the event and the read (stat succeeded, read raises) is dropped
with the dedicated file-not-found log, zero store submissions, and that
outcome is not any of the store-upload-failure classifications. -/
theorem c6_handler_never_raises (pfx bucket path et : String) (fs : FsView) (resp : PutResp) :
    (∃ calls out, handleFileEvent pfx bucket path et fs resp = .logged calls out) ∧
    (∀ n, fs.statSize = some n → fs.readBytes = none →
      handleFileEvent pfx bucket path et fs resp = .logged [] .errFileNotFound) ∧
    (∀ code, LogOutcome.errFileNotFound ≠ LogOutcome.errS3 code) ∧
    LogOutcome.errFileNotFound ≠ LogOutcome.errNoSuchBucket ∧
    LogOutcome.errFileNotFound ≠ LogOutcome.errAccessDenied ∧
    LogOutcome.errFileNotFound ≠ LogOutcome.errUnexpectedUpload := by
  refine ⟨?_, ?_, ?_, by decide, by decide, by decide⟩
  · cases hs : fs.statSize with
    | none =>
      exact ⟨[], .errProcessing, by simp [handleFileEvent, handleBody, hs]⟩
    | some n =>
      exact ⟨(uploadToS3 bucket (s3Key pfx path) path fs resp).1,
             (uploadToS3 bucket (s3Key pfx path) path fs resp).2,
             by simp [handleFileEvent, handleBody, hs]⟩
  · intro n h1 h2
    simp [handleFileEvent, handleBody, h1, uploadToS3, h2]
  · intro code h
    exact LogOutcome.noConfusion h

/-- C6 witness: a file present at `stat` but vanished at `open` is logged
as file-not-found with no store submission. -/
theorem c6_handler_never_raises_witness :
    handleFileEvent "up" "bucket" "/w/a.txt" "created"
        { statSize := some 2, readBytes := none } .ok
      = .logged [] .errFileNotFound :=
  (c6_handler_never_raises "up" "bucket" "/w/a.txt" "created"
    { statSize := some 2, readBytes := none } .ok).2.1 2 rfl rfl

/-- C3: a permanent store error — access denied or bucket missing — on an
upload yields exactly one `put_object` submission and zero retries, one
logged outcome matching the error's classification, the task is dropped,
and the event loop processes the remaining events unchanged. -/
theorem c3_fatal_error_single_attempt (pfx bucket path et : String) (fs : FsView)
    (n : Nat) (body : List Nat) (code : String)
    (hstat : fs.statSize = some n) (hread : fs.readBytes = some body)
    (hperm : code = "AccessDenied" ∨ code = "NoSuchBucket") :
    handleFileEvent pfx bucket path et fs (.clientError code)
      = .logged [{ bucket := bucket, key := s3Key pfx path, body := body,
                   contentType := getContentType path }]
          (if code = "NoSuchBucket" then .errNoSuchBucket else .errAccessDenied) ∧
    (∀ (e : EventCtx) (rest : List EventCtx),
      processEvents pfx bucket (e :: rest)
        = ((dispatchEvent pfx bucket e).1 ++ (processEvents pfx bucket rest).1,
           (dispatchEvent pfx bucket e).2 ++ (processEvents pfx bucket rest).2)) := by
  constructor
  · rcases hperm with hc | hc <;> subst hc <;>
      simp [handleFileEvent, handleBody, hstat, uploadToS3, hread, classifyClientError]
  · intro e rest
    rfl

/-- C3 witness: a concrete access-denied upload and a concrete
bucket-missing upload — one submission and one logged outcome each —
followed by a successful upload of another file, showing the loop keeps
processing. -/
theorem c3_fatal_error_single_attempt_witness :
    handleFileEvent "" "bucket" "/w/a.txt" "created"
        { statSize := some 2, readBytes := some [104, 105] } (.clientError "AccessDenied")
      = .logged [{ bucket := "bucket", key := "a.txt", body := [104, 105],
                   contentType := "text/plain" }] .errAccessDenied ∧
    handleFileEvent "" "bucket" "/w/b.txt" "created"
        { statSize := some 2, readBytes := some [104, 105] } (.clientError "NoSuchBucket")
      = .logged [{ bucket := "bucket", key := "b.txt", body := [104, 105],
                   contentType := "text/plain" }] .errNoSuchBucket ∧
    (processEvents "" "bucket"
        [{ kind := .created, srcPath := "/w/a.txt", isDirectory := false,
           fs := { statSize := some 2, readBytes := some [104, 105] },
           resp := .clientError "AccessDenied" },
         { kind := .created, srcPath := "/w/b.json", isDirectory := false,
           fs := { statSize := some 2, readBytes := some [123, 125] }, resp := .ok }]).2
      = [.errAccessDenied, .uploadedOk] := by
  have h1 := c3_fatal_error_single_attempt "" "bucket" "/w/a.txt" "created"
    { statSize := some 2, readBytes := some [104, 105] } 2 [104, 105]
    "AccessDenied" rfl rfl (Or.inl rfl)
  have h2 := c3_fatal_error_single_attempt "" "bucket" "/w/b.txt" "created"
    { statSize := some 2, readBytes := some [104, 105] } 2 [104, 105]
    "NoSuchBucket" rfl rfl (Or.inr rfl)
  refine ⟨?_, ?_, by decide⟩
  · have ha := h1.1
    rw [if_neg (by decide)] at ha
    exact ha
  · have hb := h2.1
    rw [if_pos rfl] at hb
    exact hb

/-- C1 counterexample: a store that always returns a transient error
(throttling code `SlowDown`) receives exactly ONE `put_object` submission
for the task — not the claimed `maxAttempts` (recommended 5) — and the
task ends immediately in a logged outcome with no retry. -/
theorem c1_counterexample :
    resultCalls (handleFileEvent "" "bucket" "/w/a.txt" "created"
        { statSize := some 2, readBytes := some [104, 105] } (.clientError "SlowDown"))
      = [{ bucket := "bucket", key := "a.txt", body := [104, 105],
           contentType := "text/plain" }] ∧
    (resultCalls (handleFileEvent "" "bucket" "/w/a.txt" "created"
        { statSize := some 2, readBytes := some [104, 105] }
        (.clientError "SlowDown"))).length = 1 ∧
    ¬ (resultCalls (handleFileEvent "" "bucket" "/w/a.txt" "created"
        { statSize := some 2, readBytes := some [104, 105] }
        (.clientError "SlowDown"))).length = 5 ∧
    resultOutcomes (handleFileEvent "" "bucket" "/w/a.txt" "created"
        { statSize := some 2, readBytes := some [104, 105] } (.clientError "SlowDown"))
      = [.errS3 "SlowDown"] := by
  refine ⟨by decide, by decide, by decide, by decide⟩

/-- C1 amended: there is no retry loop — for EVERY failing store reply
(transient or permanent class alike) the uploader performs exactly one
`put_object` submission and the task ends in a single logged non-success
outcome; `attempt` state does not exist. -/
theorem c1_no_retry_single_submission (pfx bucket path et : String) (fs : FsView)
    (n : Nat) (body : List Nat) (resp : PutResp)
    (hstat : fs.statSize = some n) (hread : fs.readBytes = some body)
    (hfail : resp ≠ .ok) :
    ∃ out, handleFileEvent pfx bucket path et fs resp
        = .logged [{ bucket := bucket, key := s3Key pfx path, body := body,
                     contentType := getContentType path }] out ∧
      out ≠ .uploadedOk := by
  cases resp with
  | ok => exact absurd rfl hfail
  | clientError code =>
    refine ⟨classifyClientError code, ?_, ?_⟩
    · simp [handleFileEvent, handleBody, hstat, uploadToS3, hread]
    · unfold classifyClientError
      split
      · exact fun h => LogOutcome.noConfusion h
      · split
        · exact fun h => LogOutcome.noConfusion h
        · exact fun h => LogOutcome.noConfusion h
  | connectionError =>
    refine ⟨.errUnexpectedUpload, ?_, by decide⟩
    simp [handleFileEvent, handleBody, hstat, uploadToS3, hread]

/-- C1 amended witness: the single-submission behavior at a concrete
throttled upload. -/
theorem c1_no_retry_single_submission_witness :
    ∃ out, handleFileEvent "" "bucket" "/w/a.txt" "created"
        { statSize := some 2, readBytes := some [104, 105] } (.clientError "SlowDown")
        = .logged [{ bucket := "bucket", key := s3Key "" "/w/a.txt", body := [104, 105],
                     contentType := getContentType "/w/a.txt" }] out ∧
      out ≠ .uploadedOk :=
  c1_no_retry_single_submission "" "bucket" "/w/a.txt" "created"
    { statSize := some 2, readBytes := some [104, 105] } 2 [104, 105]
    (.clientError "SlowDown") rfl rfl (by decide)

/-- C2 counterexample: two rapid events on the same path (well within any
debounce window) produce TWO separate `put_object` submissions, not the
claimed single coalesced upload task — the first is not superseded. -/
theorem c2_counterexample :
    (processEvents "" "bucket"
        [{ kind := .created, srcPath := "/w/a.txt", isDirectory := false,
           fs := { statSize := some 2, readBytes := some [104, 105] }, resp := .ok },
         { kind := .modified, srcPath := "/w/a.txt", isDirectory := false,
           fs := { statSize := some 4, readBytes := some [104, 105, 32, 33] },
           resp := .ok }]).1
      = [{ bucket := "bucket", key := "a.txt", body := [104, 105],
           contentType := "text/plain" },
         { bucket := "bucket", key := "a.txt", body := [104, 105, 32, 33],
           contentType := "text/plain" }] ∧
    (processEvents "" "bucket"
        [{ kind := .created, srcPath := "/w/a.txt", isDirectory := false,
           fs := { statSize := some 2, readBytes := some [104, 105] }, resp := .ok },
         { kind := .modified, srcPath := "/w/a.txt", isDirectory := false,
           fs := { statSize := some 4, readBytes := some [104, 105, 32, 33] },
           resp := .ok }]).1.length = 2 ∧
    ¬ (processEvents "" "bucket"
        [{ kind := .created, srcPath := "/w/a.txt", isDirectory := false,
           fs := { statSize := some 2, readBytes := some [104, 105] }, resp := .ok },
         { kind := .modified, srcPath := "/w/a.txt", isDirectory := false,
           fs := { statSize := some 4, readBytes := some [104, 105, 32, 33] },
           resp := .ok }]).1.length = 1 := by
  refine ⟨by decide, by decide, by decide⟩

/-- C2 amended: there is no debounce or coalescing — every non-directory
create/modify event on a path produces its own upload carrying the bytes
read at its own handling time, one `put_object` submission per event, all
to the same remote key (so the store's final state is the last event's
content, but earlier events are uploaded too, not superseded). -/
theorem c2_upload_per_event (pfx bucket path : String) (es : List EventCtx)
    (h : ∀ e ∈ es, e.srcPath = path ∧ e.isDirectory = false ∧
         e.fs.statSize.isSome ∧ e.fs.readBytes.isSome) :
    (processEvents pfx bucket es).1.length = es.length ∧
    (∀ c ∈ (processEvents pfx bucket es).1, c.key = s3Key pfx path) := by
  induction es with
  | nil =>
    refine ⟨rfl, ?_⟩
    intro c hc
    simp [processEvents] at hc
  | cons e rest ih =>
    obtain ⟨hpath, hdir, hstat, hread⟩ := h e (List.mem_cons_self e rest)
    obtain ⟨n, hn⟩ := Option.isSome_iff_exists.mp hstat
    obtain ⟨b, hb⟩ := Option.isSome_iff_exists.mp hread
    have hrest := ih (fun e' he' => h e' (List.mem_cons_of_mem e he'))
    have hup : (uploadToS3 bucket (s3Key pfx e.srcPath) e.srcPath e.fs e.resp).1
        = [{ bucket := bucket, key := s3Key pfx e.srcPath, body := b,
             contentType := getContentType e.srcPath }] := by
      cases e.resp <;> simp [uploadToS3, hb]
    have hhand : ∀ et, resultCalls (handleFileEvent pfx bucket e.srcPath et e.fs e.resp)
        = (uploadToS3 bucket (s3Key pfx e.srcPath) e.srcPath e.fs e.resp).1 := by
      intro et
      simp [handleFileEvent, handleBody, hn, resultCalls]
    have hd : (dispatchEvent pfx bucket e).1
        = [{ bucket := bucket, key := s3Key pfx e.srcPath, body := b,
             contentType := getContentType e.srcPath }] := by
      cases hk : e.kind <;>
        simp [dispatchEvent, hk, onCreated, onModified, hdir, hhand, hup]
    constructor
    · show ((dispatchEvent pfx bucket e).1 ++ (processEvents pfx bucket rest).1).length
        = rest.length + 1
      rw [List.length_append, hd, hrest.1]
      simp [Nat.add_comm]
    · intro c hc
      rcases List.mem_append.mp hc with h1 | h2
      · rw [hd] at h1
        simp only [List.mem_singleton] at h1
        rw [h1]
        show s3Key pfx e.srcPath = s3Key pfx path
        rw [hpath]
      · exact hrest.2 c h2

/-- C2 amended witness: the two-event burst of the counterexample paired
with the amended count — one submission per event, both to key `a.txt`. -/
theorem c2_upload_per_event_witness :
    (processEvents "" "bucket"
        [{ kind := .created, srcPath := "/w/a.txt", isDirectory := false,
           fs := { statSize := some 2, readBytes := some [104, 105] }, resp := .ok },
         { kind := .modified, srcPath := "/w/a.txt", isDirectory := false,
           fs := { statSize := some 4, readBytes := some [104, 105, 32, 33] },
           resp := .ok }]).1.length
      = 2 ∧
    (∀ c ∈ (processEvents "" "bucket"
        [{ kind := .created, srcPath := "/w/a.txt", isDirectory := false,
           fs := { statSize := some 2, readBytes := some [104, 105] }, resp := .ok },
         { kind := .modified, srcPath := "/w/a.txt", isDirectory := false,
           fs := { statSize := some 4, readBytes := some [104, 105, 32, 33] },
           resp := .ok }]).1, c.key = s3Key "" "/w/a.txt") :=
  c2_upload_per_event "" "bucket" "/w/a.txt"
    [{ kind := .created, srcPath := "/w/a.txt", isDirectory := false,
       fs := { statSize := some 2, readBytes := some [104, 105] }, resp := .ok },
     { kind := .modified, srcPath := "/w/a.txt", isDirectory := false,
       fs := { statSize := some 4, readBytes := some [104, 105, 32, 33] },
       resp := .ok }]
    (by intro e he; fin_cases he <;> refine ⟨rfl, rfl, rfl, rfl⟩)

/-- C7: startup validation is eager — with enough arguments, a watch root
that does not exist or is not a directory makes `main` exit with code 1
having performed NO external action: no client creation, no bucket probe,
no watch registration. -/
theorem c7_eager_watch_path_validation (env : Env)
    (hargs : 3 ≤ env.argv.length)
    (hbad : env.pathExists = false ∨ env.pathIsDir = false) :
    runMain env = ([], .exited 1) := by
  have hlt : ¬ env.argv.length < 3 := by omega
  rcases hbad with hb | hb
  · simp [runMain, hlt, hb]
  · cases hpe : env.pathExists with
    | false => simp [runMain, hlt, hpe]
    | true => simp [runMain, hlt, hpe, hb]

/-- C7 witness: a concrete environment with a missing watch path exits 1
with no actions; one with a non-directory watch path does too. -/
theorem c7_eager_watch_path_validation_witness :
    runMain { argv := ["s3_file_monitor.py", "/missing", "bucket"],
              pathExists := false, pathIsDir := false, credentialsOk := true,
              buckets := ["first"], headBucketResp := fun _ => none }
      = ([], .exited 1) ∧
    runMain { argv := ["s3_file_monitor.py", "/a/file.txt", "bucket"],
              pathExists := true, pathIsDir := false, credentialsOk := true,
              buckets := ["first"], headBucketResp := fun _ => none }
      = ([], .exited 1) := by
  constructor
  · exact c7_eager_watch_path_validation _ (by decide) (Or.inl rfl)
  · exact c7_eager_watch_path_validation _ (by decide) (Or.inr rfl)

/-- C10: `create_s3_client` probes connectivity with `head_bucket` on the
FIRST bucket of `list_buckets` — a function of the account's bucket list
only, never of the user-supplied bucket name — so an account owning zero
buckets makes it raise (`IndexError`) and `main` exits with code 1 even
when the target bucket's own `head_bucket` would succeed. -/
theorem c10_probe_first_bucket (env : Env)
    (hargs : 3 ≤ env.argv.length)
    (hexists : env.pathExists = true) (hdir : env.pathIsDir = true)
    (hcred : env.credentialsOk = true)
    (hempty : env.buckets = [])
    (htarget : env.headBucketResp (env.argv.getD 2 "") = none) :
    createS3Client env = ([.listBuckets], .error .indexError) ∧
    runMain env = ([.listBuckets], .exited 1) ∧
    (∀ (env' : Env) (b : String) (rest : List String),
      env'.credentialsOk = true → env'.buckets = b :: rest →
      (createS3Client env').1 = [.listBuckets, .headBucket b]) := by
  have hc : createS3Client env = ([.listBuckets], .error .indexError) := by
    simp [createS3Client, hcred, hempty]
  refine ⟨hc, ?_, ?_⟩
  · have hlt : ¬ env.argv.length < 3 := by omega
    simp [runMain, hlt, hexists, hdir, hc]
  · intro env' b rest hcred' hb
    cases hh : env'.headBucketResp b <;> simp [createS3Client, hcred', hb, hh]

/-- C10 witness: an account with zero buckets, valid arguments and a
target bucket that would be accessible — client creation fails with the
index error and the process exits 1 without scheduling any watch. -/
theorem c10_probe_first_bucket_witness :
    createS3Client { argv := ["s3_file_monitor.py", "/w", "target-bucket"],
                     pathExists := true, pathIsDir := true, credentialsOk := true,
                     buckets := [], headBucketResp := fun _ => none }
      = ([.listBuckets], .error .indexError) ∧
    runMain { argv := ["s3_file_monitor.py", "/w", "target-bucket"],
              pathExists := true, pathIsDir := true, credentialsOk := true,
              buckets := [], headBucketResp := fun _ => none }
      = ([.listBuckets], .exited 1) := by
  have h := c10_probe_first_bucket
    { argv := ["s3_file_monitor.py", "/w", "target-bucket"],
      pathExists := true, pathIsDir := true, credentialsOk := true,
      buckets := [], headBucketResp := fun _ => none }
    (by decide) rfl rfl rfl rfl rfl
  exact ⟨h.1, h.2.1⟩

end S3Monitor
